import Mathlib

/-!
Shallow embedding of the `modelz` crate (a 3D-model loading library) for
checking its natural-language specification.

Conventions of the embedding:
* `f32` values are only ever copied from parser output, compared for
  presence, or set to the literals `0.0` / `1.0`; no floating-point
  arithmetic is performed anywhere in the loaders.  They are therefore
  modelled by exact rationals (`F := Rat`).
* Filesystem access and the external parsing libraries (`tobj`, `gltf`,
  `stl_io`, `ply_rs`) are out of scope per the spec; each adapter is
  embedded as a function of an environment record carrying the results the
  external collaborators would have produced (`Except String _` values for
  fallible calls).  The adapter bodies themselves are translated
  statement-by-statement from `src/`.
* A Rust function that can `panic!` (explicitly, via `unwrap`/`expect`, or
  via out-of-bounds indexing) is embedded with result type `Outcome α`,
  which distinguishes `ok`, a returned `ModelError` (`err`), and a panic
  (`panicked`).
-/

/-- `f32`, carried opaquely (copied, never computed with). -/
abbrev F := Rat

/-- A `[f32; 2]` array (texture coordinate). -/
structure Vec2 where
  u : F
  v : F
deriving DecidableEq, Repr

/-- A `[f32; 3]` array (position / normal). -/
structure Vec3 where
  x : F
  y : F
  z : F
deriving DecidableEq, Repr

/-- A `[f32; 4]` array (RGBA color). -/
structure Vec4 where
  r : F
  g : F
  b : F
  a : F
deriving DecidableEq, Repr

/-- `ModelError` from `src/lib.rs` (note the source spells `UnknowFormat`). -/
inductive ModelError where
  | UnknowFormat
  | FileNotExists
  | OpenFile (s : String)
  | ModelParsing (s : String)
  | MaterialLoad (s : String)
deriving DecidableEq, Repr

/-- `ModelFormat` from `src/lib.rs` (all crate features enabled). -/
inductive ModelFormat where
  | OBJ
  | GLTF
  | STL
  | PLY
deriving DecidableEq, Repr

/-- Result of running a Rust function returning `Result<α, ModelError>`
that may additionally panic. -/
inductive Outcome (α : Type) where
  | ok (a : α)
  | err (e : ModelError)
  | panicked (msg : String)
deriving DecidableEq, Repr

/-- Sequencing of Rust statements: `?`-style propagation plus panics. -/
def Outcome.bind {α β : Type} : Outcome α → (α → Outcome β) → Outcome β
  | .ok a, f => f a
  | .err e, _ => .err e
  | .panicked m, _ => .panicked m

/-- `RenderMode` from `src/lib.rs`. -/
inductive RenderMode where
  | Points
  | Lines
  | LineLoop
  | LineStrip
  | Triangles
  | TriangleStrip
  | TriangleFan
deriving DecidableEq, Repr

/-- `AlphaMode` from `src/lib.rs`. -/
inductive AlphaMode where
  | Opaque
  | Mask
  | Blend
deriving DecidableEq, Repr

/-- `MagFilter` from `src/lib.rs`. -/
inductive MagFilter where
  | Nearest
  | Linear
deriving DecidableEq, Repr

/-- `MinFilter` from `src/lib.rs`. -/
inductive MinFilter where
  | Nearest
  | Linear
  | NearestMipmapNearest
  | LinearMipmapNearest
  | NearestMipmapLinear
  | LinearMipmapLinear
deriving DecidableEq, Repr

/-- `WrappingMode` from `src/lib.rs`. -/
inductive WrappingMode where
  | ClampToEdge
  | MirroredRepeat
  | Repeat
deriving DecidableEq, Repr

/-- `Image` from `src/lib.rs`; bytes as `Nat`, paths as `String`. -/
inductive Image where
  | Memory (data : List Nat) (mime_type : Option String)
  | Path (path : String) (mime_type : Option String)
deriving DecidableEq, Repr

/-- `Sampler` from `src/lib.rs`. -/
structure Sampler where
  mag_filter : Option MagFilter
  min_filter : Option MinFilter
  wrap_s : WrappingMode
  wrap_t : WrappingMode
  name : Option String
deriving DecidableEq, Repr

/-- `Sampler::default()` (`#[derive(Default)]`; `WrappingMode` defaults to
`Repeat`). -/
def Sampler.default : Sampler :=
  { mag_filter := none, min_filter := none, wrap_s := .Repeat,
    wrap_t := .Repeat, name := none }

/-- `Texture` from `src/lib.rs`. -/
structure Texture where
  image : Image
  sampler : Sampler
  name : Option String
deriving DecidableEq, Repr

/-- `Material` from `src/lib.rs`. -/
structure Material where
  diffuse_texture : Option Texture
  alpha_mode : AlphaMode
  alpha_cutoff : Option F
  double_sided : Bool
  base_color : Option Vec4
  name : Option String
deriving DecidableEq, Repr

/-- `Vertex` from `src/lib.rs`. -/
structure Vertex where
  position : Vec3
  color : Option Vec4
  tex_coord : Option Vec2
  normal : Option Vec3
deriving DecidableEq, Repr

/-- `Indices` from `src/lib.rs`; element values as `Nat`. -/
inductive Indices where
  | U8 (l : List Nat)
  | U16 (l : List Nat)
  | U32 (l : List Nat)
deriving DecidableEq, Repr

/-- `Mesh` from `src/lib.rs`.

`lib.rs` declares `mode: RenderMode` as a required field, but the STL
adapter's `Mesh` literal (`src/stl.rs`) sets no `mode` at all (it would not
compile against `lib.rs` as given); the embedding makes the field an
`Option` so that the absent initialization can be represented faithfully
(`none` = the adapter set no mode; `some m` = the adapter set mode `m`). -/
structure Mesh where
  vertices : List Vertex
  indices : Option Indices
  mode : Option RenderMode
  material_index : Option Nat
  name : Option String
deriving DecidableEq, Repr

/-- `Model3D` from `src/lib.rs`. -/
structure Model3D where
  meshes : List Mesh
  materials : List Material
  format : ModelFormat
deriving DecidableEq, Repr

/-- `get_format` from `src/lib.rs`.

The path is abstracted by the two facts the function consults:
whether it exists on disk (`pathExists`), and
`path.extension().and_then(|ext| ext.to_str())` (`extension`).
`.expect("Failed to get File extension")` on a `None` extension is a panic.
All crate features are enabled; note the `match` has no `"ply"` arm. -/
def get_format (pathExists : Bool) (extension : Option String) :
    Outcome ModelFormat :=
  if !pathExists then .err .FileNotExists
  else
    match extension with
    | none => .panicked "Failed to get File extension"
    | some ext =>
      match ext with
      | "obj" => .ok .OBJ
      | "gltf" => .ok .GLTF
      | "glb" => .ok .GLTF
      | "stl" => .ok .STL
      | _ => .err .UnknowFormat

/-! ## STL adapter (`src/stl.rs`) -/

deriving instance DecidableEq for Except

/-- A triangle record from `stl_io` (`Triangle`): one normal plus the
three entries of the fixed-size `vertices: [usize; 3]` index array
(`face.vertices[0]`, `[1]`, `[2]` — indexing a fixed array, never fails). -/
structure StlFace where
  normal : Vec3
  v0 : Nat
  v1 : Nat
  v2 : Nat
deriving DecidableEq, Repr

/-- `stl_io::IndexedMesh`: a vertex table plus faces indexing into it. -/
structure IndexedMesh where
  vertices : List Vec3
  faces : List StlFace
deriving DecidableEq, Repr

/-- Environment for `stl::load`: the results the external collaborators
would produce for the given path (`File::open`, then `stl_io::read_stl`). -/
structure StlEnv where
  openResult : Except String Unit
  readResult : Except String IndexedMesh
deriving DecidableEq, Repr

/-- The `for face in stl.faces` loop of `stl::load`: looks up the three
referenced vertices (`stl.vertices[face.vertices[k]]` panics when out of
bounds) and pushes three `Vertex` values sharing the face's normal.

The source's `Vertex` literal sets no `color` field (it would not compile
against `lib.rs`, which requires one); the absent initialization is
embedded as `color := none`. -/
def stlExpand (vl : List Vec3) : List StlFace → Outcome (List Vertex)
  | [] => .ok []
  | f :: fs =>
    match vl[f.v0]?, vl[f.v1]?, vl[f.v2]? with
    | some pos1, some pos2, some pos3 =>
      (stlExpand vl fs).bind fun rest =>
        .ok ({ position := pos1, color := none, tex_coord := none,
               normal := some f.normal }
          :: { position := pos2, color := none, tex_coord := none,
               normal := some f.normal }
          :: { position := pos3, color := none, tex_coord := none,
               normal := some f.normal }
          :: rest)
    | _, _, _ => .panicked "index out of bounds"

/-- `stl::load` from `src/stl.rs`.  Both `File::open(path).unwrap()` and
`read_stl(..).unwrap()` panic on failure.  The `Mesh` literal sets no
`mode` field (embedded as `mode := none`, see `Mesh`). -/
def stl.load (env : StlEnv) : Outcome Model3D :=
  match env.openResult with
  | .error e => .panicked e
  | .ok _ =>
    match env.readResult with
    | .error e => .panicked e
    | .ok stl =>
      (stlExpand stl.vertices stl.faces).bind fun vertices =>
        .ok { meshes := [{ vertices, indices := none, mode := none,
                           material_index := none, name := none }],
              materials := [], format := .STL }

/-! ## PLY adapter (`src/ply.rs`) -/

/-- The private `Vertex` struct of `src/ply.rs` (renamed `PlyVertex` to
avoid clashing with the canonical `Vertex`): accumulated state of the
`ply_rs` property visitor, `Default`-initialized. -/
structure PlyVertex where
  x : F := 0
  y : F := 0
  z : F := 0
  x_norm : Option F := none
  y_norm : Option F := none
  z_norm : Option F := none
  tex_x : Option F := none
  tex_y : Option F := none
deriving DecidableEq, Repr

/-- `ply_rs::ply::Property`, restricted to the constructors the visitors
inspect; every other constructor behaves like `OtherProp` (falls through
to the logged-and-ignored arm). -/
inductive PlyProperty where
  | Float (v : F)
  | ListUInt (l : List Nat)
  | OtherProp
deriving DecidableEq, Repr

/-- `<Vertex as PropertyAccess>::set_property` from `src/ply.rs`.
Unmatched key/value combinations are logged (`eprintln!`) and ignored. -/
def PlyVertex.set_property (s : PlyVertex) (key : String) (p : PlyProperty) :
    PlyVertex :=
  match key, p with
  | "x", .Float v => { s with x := v }
  | "y", .Float v => { s with y := v }
  | "z", .Float v => { s with z := v }
  | "nx", .Float v => { s with x_norm := some v }
  | "ny", .Float v => { s with y_norm := some v }
  | "nz", .Float v => { s with z_norm := some v }
  | "u", .Float v => { s with tex_x := some v }
  | "s", .Float v => { s with tex_x := some v }
  | "tx", .Float v => { s with tex_x := some v }
  | "texture_u", .Float v => { s with tex_x := some v }
  | "v", .Float v => { s with tex_y := some v }
  | "t", .Float v => { s with tex_y := some v }
  | "ty", .Float v => { s with tex_y := some v }
  | "texture_v", .Float v => { s with tex_y := some v }
  | _, _ => s

/-- The private `Face` struct of `src/ply.rs`. -/
structure PlyFace where
  vertex_index : List Nat
deriving DecidableEq, Repr

/-- `<Face as PropertyAccess>::set_property` from `src/ply.rs`. -/
def PlyFace.set_property (s : PlyFace) (key : String) (p : PlyProperty) :
    PlyFace :=
  match key, p with
  | "vertex_index", .ListUInt l => { s with vertex_index := l }
  | "vertex_indices", .ListUInt l => { s with vertex_index := l }
  | _, _ => s

/-- One element declaration of a PLY header, together with the payloads
the `ply_rs` payload readers would produce for it (the vertex-visitor
reading and the face-visitor reading; `ply::load` consumes whichever the
element's name selects). -/
structure PlyElement where
  name : String
  vertexPayload : Except String (List PlyVertex)
  facePayload : Except String (List PlyFace)
deriving DecidableEq, Repr

/-- A parsed PLY header: its element declarations in file order. -/
structure PlyHeader where
  elements : List PlyElement
deriving DecidableEq, Repr

/-- Environment for `ply::load`: `File::open` result and
`read_header` result. -/
structure PlyEnv where
  openResult : Except String Unit
  headerResult : Except String PlyHeader
deriving DecidableEq, Repr

/-- The `for (_ignore_key, element) in &header.elements` loop of
`ply::load`: reads the payload for each declared element
(`read_payload_for_element(..).unwrap()` panics on a parse error), binding
it to `vertex_list` or `face_list` by element name; any other element name
hits `panic!("Enexpeced element!")`. -/
def ply.readElements : List PlyElement → List PlyVertex → List PlyFace →
    Outcome (List PlyVertex × List PlyFace)
  | [], vertex_list, face_list => .ok (vertex_list, face_list)
  | e :: es, vertex_list, face_list =>
    match e.name with
    | "vertex" =>
      match e.vertexPayload with
      | .ok l => ply.readElements es l face_list
      | .error msg => .panicked msg
    | "face" =>
      match e.facePayload with
      | .ok l => ply.readElements es vertex_list l
      | .error msg => .panicked msg
    | _ => .panicked "Enexpeced element!"

/-- The nested `if let` chain of `src/ply.rs` lines 106–112 (and its two
repetitions), translated verbatim: note the source matches `z_norm` where
`y_norm` is expected (binder `y` receives the `nz` component), and leaves
`normal` at its previous value when the chain does not complete. -/
def ply.normalUpdate (prev : Option Vec3) (v : PlyVertex) : Option Vec3 :=
  match v.x_norm with
  | some x =>
    match v.z_norm with
    | some y =>
      match v.z_norm with
      | some z => some ⟨x, y, z⟩
      | none => prev
    | none => prev
  | none => prev

/-- The `tex_coord` `if let` chain of `src/ply.rs` (lines 113–117 and its
repetitions): both components checked, previous value kept otherwise. -/
def ply.texUpdate (prev : Option Vec2) (v : PlyVertex) : Option Vec2 :=
  match v.tex_x with
  | some x =>
    match v.tex_y with
    | some y => some ⟨x, y⟩
    | none => prev
  | none => prev

/-- One iteration of the `for face in face_list` loop of `ply::load`:
looks up the vertices referenced by the first three entries of
`face.vertex_index` (any of the six indexings panics when out of bounds),
then builds three canonical vertices, threading the `let mut normal` /
`let mut tex_coord` variables through the three `if let` chains exactly as
the source does (so a later vertex whose chain does not complete inherits
the previous vertex's value). -/
def ply.faceVertices (vertex_list : List PlyVertex) (face : PlyFace) :
    Outcome (List Vertex) :=
  match face.vertex_index[0]? with
  | none => .panicked "index out of bounds"
  | some i0 =>
    match vertex_list[i0]? with
    | none => .panicked "index out of bounds"
    | some vertex =>
      match face.vertex_index[1]? with
      | none => .panicked "index out of bounds"
      | some i1 =>
        match vertex_list[i1]? with
        | none => .panicked "index out of bounds"
        | some vertex1 =>
          match face.vertex_index[2]? with
          | none => .panicked "index out of bounds"
          | some i2 =>
            match vertex_list[i2]? with
            | none => .panicked "index out of bounds"
            | some vertex2 =>
              let normal := ply.normalUpdate none vertex
              let tex_coord := ply.texUpdate none vertex
              let v1 : Vertex :=
                { position := ⟨vertex.x, vertex.y, vertex.z⟩,
                  tex_coord, color := none, normal }
              let normal := ply.normalUpdate normal vertex1
              let tex_coord := ply.texUpdate tex_coord vertex1
              let v2 : Vertex :=
                { position := ⟨vertex1.x, vertex1.y, vertex1.z⟩,
                  tex_coord, color := none, normal }
              let normal := ply.normalUpdate normal vertex2
              let tex_coord := ply.texUpdate tex_coord vertex2
              let v3 : Vertex :=
                { position := ⟨vertex2.x, vertex2.y, vertex2.z⟩,
                  tex_coord, color := none, normal }
              .ok [v1, v2, v3]

/-- The full face loop of `ply::load`: three vertices pushed per face. -/
def ply.expandFaces (vertex_list : List PlyVertex) :
    List PlyFace → Outcome (List Vertex)
  | [] => .ok []
  | f :: fs =>
    (ply.faceVertices vertex_list f).bind fun tri =>
      (ply.expandFaces vertex_list fs).bind fun rest =>
        .ok (tri ++ rest)

/-- `ply::load` from `src/ply.rs`.  `File::open` failure is mapped to
`ModelError::OpenFile`; `read_header(..).unwrap()` panics on failure. -/
def ply.load (env : PlyEnv) : Outcome Model3D :=
  match env.openResult with
  | .error e => .err (.OpenFile e)
  | .ok _ =>
    match env.headerResult with
    | .error e => .panicked e
    | .ok header =>
      (ply.readElements header.elements [] []).bind fun lists =>
        (ply.expandFaces lists.1 lists.2).bind fun vertices =>
          .ok { meshes := [{ vertices, indices := none,
                             mode := some .TriangleFan,
                             material_index := none, name := none }],
                materials := [], format := .PLY }

/-! ## OBJ adapter (`src/obj.rs`) -/

/-- `tobj::Mesh`: the flat per-model arrays `obj::load_mesh` walks. -/
structure TobjMesh where
  positions : List F
  normals : List F
  texcoords : List F
  vertex_color : List F
  indices : List Nat
  material_id : Option Nat
deriving DecidableEq, Repr

/-- `tobj::Model`: a named mesh. -/
structure TobjModel where
  name : String
  mesh : TobjMesh
deriving DecidableEq, Repr

/-- `tobj::Material`, restricted to the fields `obj::load_material`
reads. -/
structure TobjMaterial where
  name : String
  diffuse : Option Vec3
  dissolve : Option F
  diffuse_texture : Option String
deriving DecidableEq, Repr

/-- Environment for `obj::load`: the result of
`tobj::load_obj(path, &tobj::GPU_LOAD_OPTIONS)` — on success a pair of the
model list and the (itself fallible) material-file result — together with
`path.parent().unwrap_or("./")`. -/
structure ObjEnv where
  loadResult : Except String (List TobjModel × Except String (List TobjMaterial))
  parentDir : String
deriving DecidableEq, Repr

/-- `obj::load_material` from `src/obj.rs`: base color from the diffuse
triple with alpha fixed at `1.0`; texture path joined onto the model
directory; alpha mode always opaque, double-sided always false. -/
def obj.load_material (material : TobjMaterial) (model_dir : String) :
    Material :=
  let base_color := material.diffuse.map fun d => Vec4.mk d.x d.y d.z 1
  let diffuse_texture := material.diffuse_texture.map fun texture =>
    { image := Image.Path (model_dir ++ "/" ++ texture) none,
      sampler := Sampler.default,
      name := some texture : Texture }
  { double_sided := false,
    alpha_cutoff := material.dissolve,
    alpha_mode := .Opaque,
    diffuse_texture,
    base_color,
    name := some material.name }

/-- One vertex of `obj::load_mesh`'s `(0..positions.len()/3).map(|i| ...)`
closure: each array is indexed at the fixed per-vertex stride (positions
and normals 3, texcoords 2, vertex colors 3); a zero-length array means
"attribute absent for the whole mesh" (`None`), and indexing a non-empty
but too-short array panics.  The color alpha component is the literal
`0.0` (source comment: "OBJ does not have vertex color alpha"). -/
def obj.vertexAt (mesh : TobjMesh) (i : Nat) : Outcome Vertex :=
  match mesh.positions[i * 3]?, mesh.positions[i * 3 + 1]?,
      mesh.positions[i * 3 + 2]? with
  | some p0, some p1, some p2 =>
    (Outcome.bind
      (if mesh.texcoords = [] then .ok none
       else
         match mesh.texcoords[i * 2]?, mesh.texcoords[i * 2 + 1]? with
         | some t0, some t1 => .ok (some (Vec2.mk t0 t1))
         | _, _ => .panicked "index out of bounds")) fun tex_coord =>
    (Outcome.bind
      (if mesh.vertex_color = [] then .ok none
       else
         match mesh.vertex_color[i * 3]?, mesh.vertex_color[i * 3 + 1]?,
             mesh.vertex_color[i * 3 + 2]? with
         | some r, some g, some b => .ok (some (Vec4.mk r g b 0))
         | _, _, _ => .panicked "index out of bounds")) fun color =>
    (Outcome.bind
      (if mesh.normals = [] then .ok none
       else
         match mesh.normals[i * 3]?, mesh.normals[i * 3 + 1]?,
             mesh.normals[i * 3 + 2]? with
         | some n0, some n1, some n2 => .ok (some (Vec3.mk n0 n1 n2))
         | _, _, _ => .panicked "index out of bounds")) fun normal =>
    .ok { position := ⟨p0, p1, p2⟩, tex_coord, color, normal }
  | _, _, _ => .panicked "index out of bounds"

/-- Sequences a Rust loop/iterator whose body may panic. -/
def Outcome.traverse {α β : Type} (f : α → Outcome β) :
    List α → Outcome (List β)
  | [] => .ok []
  | a :: as' =>
    (f a).bind fun b =>
      (Outcome.traverse f as').bind fun bs =>
        .ok (b :: bs)

/-- `obj::load_mesh` from `src/obj.rs`:
`(0..mesh.positions.len() / 3).map(|i| Vertex { ... }).collect()`. -/
def obj.load_mesh (mesh : TobjMesh) : Outcome (List Vertex) :=
  Outcome.traverse (obj.vertexAt mesh) (List.range (mesh.positions.length / 3))

/-- The `for (i, model) in models` loop of `obj::load`: one canonical
`Mesh` per source model; indices always 32-bit (`None` when the source
index list is empty), name taken from the model, material index taken
from `mesh.material_id`. -/
def obj.meshList : List TobjModel → Outcome (List Mesh)
  | [] => .ok []
  | model :: rest =>
    (obj.load_mesh model.mesh).bind fun vertices =>
      (obj.meshList rest).bind fun tail =>
        .ok ({ vertices,
               indices :=
                 if model.mesh.indices = [] then none
                 else some (.U32 model.mesh.indices),
               mode := some .TriangleFan,
               name := some model.name,
               material_index := model.mesh.material_id } :: tail)

/-- `obj::load` from `src/obj.rs`: a geometry-parse failure becomes
`ModelError::ModelParsing`, a material-file failure becomes
`ModelError::MaterialLoad`; the materials list is populated (one entry
per `tobj` material, via `load_material`) before the meshes. -/
def obj.load (env : ObjEnv) : Outcome Model3D :=
  match env.loadResult with
  | .error e => .err (.ModelParsing e)
  | .ok (models, materialsResult) =>
    match materialsResult with
    | .error e => .err (.MaterialLoad ("Failed to load MTL file, " ++ e))
    | .ok materials =>
      let final_materials :=
        materials.map fun material => obj.load_material material env.parentDir
      (obj.meshList models).bind fun meshes =>
        .ok { meshes, materials := final_materials, format := .OBJ }

/-! ## glTF adapter (`src/gltf.rs`) -/

/-- `gltf::texture::MagFilter` (source side). -/
inductive GMagFilter where
  | Nearest
  | Linear
deriving DecidableEq, Repr

/-- `gltf::texture::MinFilter` (source side). -/
inductive GMinFilter where
  | Nearest
  | Linear
  | NearestMipmapNearest
  | LinearMipmapNearest
  | NearestMipmapLinear
  | LinearMipmapLinear
deriving DecidableEq, Repr

/-- `gltf::texture::WrappingMode` (source side). -/
inductive GWrappingMode where
  | ClampToEdge
  | MirroredRepeat
  | Repeat
deriving DecidableEq, Repr

/-- `gltf::material::AlphaMode` (source side). -/
inductive GAlphaMode where
  | Opaque
  | Mask
  | Blend
deriving DecidableEq, Repr

/-- `gltf::mesh::Mode` (source side). -/
inductive GMode where
  | Points
  | Lines
  | LineLoop
  | LineStrip
  | Triangles
  | TriangleStrip
  | TriangleFan
deriving DecidableEq, Repr

/-- `gltf::texture::Sampler` fields read by `convert_sampler`. -/
structure GSampler where
  mag_filter : Option GMagFilter
  min_filter : Option GMinFilter
  wrap_s : GWrappingMode
  wrap_t : GWrappingMode
  name : Option String
deriving DecidableEq, Repr

/-- `gltf::image::Source`: a buffer-view slice or a relative URI. -/
inductive GSource where
  | View (bufferIndex : Nat) (offset : Nat) (length : Nat) (mime_type : String)
  | Uri (uri : String) (mime_type : Option String)
deriving DecidableEq, Repr

/-- A glTF texture as `load_material` consumes it: its image source, its
sampler, and its name. -/
structure GTexture where
  source : GSource
  sampler : GSampler
  name : Option String
deriving DecidableEq, Repr

/-- The `pbr_metallic_roughness` fields read by `load_material`. -/
structure GPbr where
  base_color_factor : Vec4
  base_color_texture : Option GTexture
deriving DecidableEq, Repr

/-- A glTF material as `load_material` consumes it. -/
structure GMaterial where
  name : Option String
  pbr : GPbr
  alpha_mode : GAlphaMode
  alpha_cutoff : Option F
  double_sided : Bool
deriving DecidableEq, Repr

/-- `gltf::mesh::util::ReadIndices`: the source index stream with its
declared width. -/
inductive GReadIndices where
  | U8 (l : List Nat)
  | U16 (l : List Nat)
  | U32 (l : List Nat)
deriving DecidableEq, Repr

/-- A glTF primitive as `load_primitive`'s reader exposes it: the decoded
attribute streams (`read_positions`, `read_normals`,
`read_colors(0).map(into_rgba_f32)`, `read_tex_coords(0).map(into_f32)`,
`read_indices`), its mode, and `primitive.material().index()`. -/
structure GPrimitive where
  positions : Option (List Vec3)
  normals : Option (List Vec3)
  colors : Option (List Vec4)
  tex_coords : Option (List Vec2)
  indicesRead : Option GReadIndices
  mode : GMode
  materialIndex : Option Nat
deriving DecidableEq, Repr

/-- A glTF mesh: its name and primitive list. -/
structure GMesh where
  name : Option String
  primitives : List GPrimitive
deriving DecidableEq, Repr

/-- The glTF document: materials and meshes in document order. -/
structure GDocument where
  materials : List GMaterial
  meshes : List GMesh
deriving DecidableEq, Repr

/-- Environment for `gltf::load`: `File::open` result,
`Gltf::from_reader` result, `import_buffers` result (each buffer a byte
list), and the model file's parent directory. -/
structure GltfEnv where
  openResult : Except String Unit
  parseResult : Except String GDocument
  buffersResult : Except String (List (List Nat))
  parentDir : String
deriving DecidableEq, Repr

/-- `convert_wrapping_mode` from `src/gltf.rs`. -/
def gltf.convert_wrapping_mode : GWrappingMode → WrappingMode
  | .ClampToEdge => .ClampToEdge
  | .MirroredRepeat => .MirroredRepeat
  | .Repeat => .Repeat

/-- `convert_sampler` from `src/gltf.rs`: field-by-field 1:1 mapping. -/
def gltf.convert_sampler (sampler : GSampler) : Sampler :=
  { mag_filter := sampler.mag_filter.map fun filter =>
      match filter with
      | .Nearest => MagFilter.Nearest
      | .Linear => MagFilter.Linear,
    min_filter := sampler.min_filter.map fun filter =>
      match filter with
      | .Nearest => MinFilter.Nearest
      | .Linear => MinFilter.Linear
      | .NearestMipmapNearest => MinFilter.NearestMipmapNearest
      | .LinearMipmapNearest => MinFilter.LinearMipmapNearest
      | .NearestMipmapLinear => MinFilter.NearestMipmapLinear
      | .LinearMipmapLinear => MinFilter.LinearMipmapLinear,
    wrap_s := gltf.convert_wrapping_mode sampler.wrap_s,
    wrap_t := gltf.convert_wrapping_mode sampler.wrap_t,
    name := sampler.name }

/-- `convert_alpha_mode` from `src/gltf.rs`. -/
def gltf.convert_alpha_mode : GAlphaMode → AlphaMode
  | .Opaque => .Opaque
  | .Mask => .Mask
  | .Blend => .Blend

/-- `convert_mode` from `src/gltf.rs`. -/
def gltf.convert_mode : GMode → RenderMode
  | .Points => .Points
  | .Lines => .Lines
  | .LineLoop => .LineLoop
  | .LineStrip => .LineStrip
  | .Triangles => .Triangles
  | .TriangleStrip => .TriangleStrip
  | .TriangleFan => .TriangleFan

/-- `load_material` from `src/gltf.rs`.  For a buffer-view image source,
`&buffer_data[view.buffer().index()].0` and the slice
`&parent_buffer_data[begin..end]` both panic when out of bounds; a URI
source is joined onto the model directory without touching the
filesystem.  The function's `Result` is always `Ok` on the paths that do
not panic. -/
def gltf.load_material (model_dir : String) (material : GMaterial)
    (buffer_data : List (List Nat)) : Outcome Material :=
  (Outcome.bind
    (match material.pbr.base_color_texture with
     | some texture =>
       match texture.source with
       | .View bufferIndex offset length mime_type =>
         match buffer_data[bufferIndex]? with
         | none => .panicked "index out of bounds"
         | some parent_buffer_data =>
           if offset + length ≤ parent_buffer_data.length then
             .ok (some
               { image := Image.Memory
                   ((parent_buffer_data.drop offset).take length)
                   (some mime_type),
                 sampler := gltf.convert_sampler texture.sampler,
                 name := texture.name : Texture })
           else .panicked "range end index out of range for slice"
       | .Uri uri mime_type =>
         .ok (some
           { image := Image.Path (model_dir ++ "/" ++ uri) mime_type,
             sampler := gltf.convert_sampler texture.sampler,
             name := texture.name : Texture })
     | none => .ok none)) fun diffuse_texture =>
  .ok { diffuse_texture,
        alpha_mode := gltf.convert_alpha_mode material.alpha_mode,
        double_sided := material.double_sided,
        name := material.name,
        base_color := some material.pbr.base_color_factor,
        alpha_cutoff := material.alpha_cutoff }

/-- One of the three attribute-assignment loops of `load_primitive`
(`for (idx, value) in attribute.enumerate() { vertices[idx].field = Some(value) }`):
writes the attribute stream over the vertex list by sequential index;
when the stream is longer than the vertex list, `vertices[idx]` panics;
when shorter, the remaining vertices keep their previous field value. -/
def gltf.assignAttr {α : Type} (upd : Vertex → α → Vertex) :
    List Vertex → List α → Outcome (List Vertex)
  | vs, [] => .ok vs
  | [], _ :: _ => .panicked "index out of bounds"
  | v :: vs, a :: as' =>
    (gltf.assignAttr upd vs as').bind fun rest =>
      .ok (upd v a :: rest)

/-- `load_primitive` from `src/gltf.rs`: positions are mandatory
(`read_positions().unwrap()` panics on `None`); normals, colors and
texture coordinates are assigned by sequential index over the positions;
the index stream's declared width tag is preserved 1:1. -/
def gltf.load_primitive (primitive : GPrimitive) :
    Outcome (List Vertex × Option Indices) :=
  match primitive.positions with
  | none => .panicked "called `Option::unwrap()` on a `None` value"
  | some positions =>
    let vertices : List Vertex := positions.map fun position =>
      { position, color := none, tex_coord := none, normal := none }
    (Outcome.bind
      (match primitive.normals with
       | some normal_attribute =>
         gltf.assignAttr (fun v normal => { v with normal := some normal })
           vertices normal_attribute
       | none => .ok vertices)) fun vertices =>
    (Outcome.bind
      (match primitive.colors with
       | some color_attribute =>
         gltf.assignAttr (fun v color => { v with color := some color })
           vertices color_attribute
       | none => .ok vertices)) fun vertices =>
    (Outcome.bind
      (match primitive.tex_coords with
       | some tex_coord_attribute =>
         gltf.assignAttr (fun v tex_coord => { v with tex_coord := some tex_coord })
           vertices tex_coord_attribute
       | none => .ok vertices)) fun vertices =>
    let indices := primitive.indicesRead.map fun indcies =>
      match indcies with
      | .U8 l => Indices.U8 l
      | .U16 l => Indices.U16 l
      | .U32 l => Indices.U32 l
    .ok (vertices, indices)

/-- The primitive loop of `load_mesh` from `src/gltf.rs`: one canonical
`Mesh` per primitive, all carrying the glTF mesh's name. -/
def gltf.primMeshes (name : Option String) :
    List GPrimitive → Outcome (List Mesh)
  | [] => .ok []
  | primitive :: rest =>
    (gltf.load_primitive primitive).bind fun vi =>
      (gltf.primMeshes name rest).bind fun tail =>
        .ok ({ vertices := vi.1, indices := vi.2,
               mode := some (gltf.convert_mode primitive.mode),
               material_index := primitive.materialIndex,
               name } :: tail)

/-- `load_mesh` from `src/gltf.rs`. -/
def gltf.load_mesh (mesh : GMesh) : Outcome (List Mesh) :=
  gltf.primMeshes mesh.name mesh.primitives

/-- The material loop of `gltf::load`:
`materials.push(load_material(path, material, &buffer_data)?)`. -/
def gltf.materialList (model_dir : String) (buffer_data : List (List Nat)) :
    List GMaterial → Outcome (List Material)
  | [] => .ok []
  | material :: rest =>
    (gltf.load_material model_dir material buffer_data).bind fun m =>
      (gltf.materialList model_dir buffer_data rest).bind fun tail =>
        .ok (m :: tail)

/-- The mesh loop of `gltf::load`:
`meshes.append(&mut load_mesh(mesh, &buffer_data))`. -/
def gltf.meshesOf : List GMesh → Outcome (List Mesh)
  | [] => .ok []
  | mesh :: rest =>
    (gltf.load_mesh mesh).bind fun ms =>
      (gltf.meshesOf rest).bind fun tail =>
        .ok (ms ++ tail)

/-- `gltf::load` from `src/gltf.rs`: `File::open` failure becomes
`ModelError::OpenFile`, `Gltf::from_reader` failure becomes
`ModelError::ModelParsing`, and `import_buffers(..)`'s
`.expect("Failed to Load glTF Buffers")` panics on failure. -/
def gltf.load (env : GltfEnv) : Outcome Model3D :=
  match env.openResult with
  | .error e => .err (.OpenFile e)
  | .ok _ =>
    match env.parseResult with
    | .error e => .err (.ModelParsing e)
    | .ok document =>
      match env.buffersResult with
      | .error _ => .panicked "Failed to Load glTF Buffers"
      | .ok buffer_data =>
        (gltf.materialList env.parentDir buffer_data document.materials).bind
          fun materials =>
          (gltf.meshesOf document.meshes).bind fun meshes =>
            .ok { meshes, materials, format := .GLTF }

/-! ## Public entry points (`src/lib.rs`) -/

/-- The combined environment a `Model3D::load` call runs against: the two
path facts the dispatcher consults plus each adapter's collaborator
results. -/
structure LoadEnv where
  pathExists : Bool
  extension : Option String
  objEnv : ObjEnv
  gltfEnv : GltfEnv
  stlEnv : StlEnv
  plyEnv : PlyEnv
deriving DecidableEq, Repr

/-- `Model3D::from_format` from `src/lib.rs`: dispatch to the adapter
selected by the format tag. -/
def Model3D.from_format (env : LoadEnv) (format : ModelFormat) :
    Outcome Model3D :=
  match format with
  | .OBJ => obj.load env.objEnv
  | .GLTF => gltf.load env.gltfEnv
  | .STL => stl.load env.stlEnv
  | .PLY => ply.load env.plyEnv

/-- `Model3D::load` from `src/lib.rs`: `get_format` then `from_format`. -/
def Model3D.load (env : LoadEnv) : Outcome Model3D :=
  (get_format env.pathExists env.extension).bind fun format =>
    Model3D.from_format env format

/-! ## Claim-side predicates and concrete inputs -/

/-- The claimed referential-integrity invariant: every mesh whose
`material_index` is present indexes into the same model's materials
list. -/
def materialIndexOk (model : Model3D) : Bool :=
  model.meshes.all fun m =>
    match m.material_index with
    | some i => i < model.materials.length
    | none => true

/-- A `LoadEnv` whose adapter collaborators all fail; only the dispatcher
facts vary in the claims that use it. -/
def c1env : LoadEnv :=
  { pathExists := true,
    extension := some "ply",
    objEnv := { loadResult := .error "unused", parentDir := "." },
    gltfEnv := { openResult := .error "unused", parseResult := .error "unused",
                 buffersResult := .error "unused", parentDir := "." },
    stlEnv := { openResult := .error "unused", readResult := .error "unused" },
    plyEnv := { openResult := .error "unused", headerResult := .error "unused" } }

/-- A PLY file with a single triangle over one vertex that carries a fully
populated normal `(nx, ny, nz) = (1, 2, 3)`. -/
def c3envA : PlyEnv :=
  { openResult := .ok (),
    headerResult := .ok
      { elements :=
          [{ name := "vertex",
             vertexPayload := .ok
               [{ x := 10, y := 20, z := 30,
                  x_norm := some 1, y_norm := some 2, z_norm := some 3 }],
             facePayload := .ok [] },
           { name := "face",
             vertexPayload := .ok [],
             facePayload := .ok [{ vertex_index := [0, 0, 0] }] }] } }

/-- A PLY file with a single triangle over one vertex whose normal has
`nx` and `nz` parsed but no `ny`. -/
def c3envB : PlyEnv :=
  { openResult := .ok (),
    headerResult := .ok
      { elements :=
          [{ name := "vertex",
             vertexPayload := .ok
               [{ x := 10, y := 20, z := 30,
                  x_norm := some 1, y_norm := none, z_norm := some 2 }],
             facePayload := .ok [] },
           { name := "face",
             vertexPayload := .ok [],
             facePayload := .ok [{ vertex_index := [0, 0, 0] }] }] } }

/-- A PLY file with three plain vertices and one triangular face. -/
def c5env : PlyEnv :=
  { openResult := .ok (),
    headerResult := .ok
      { elements :=
          [{ name := "vertex",
             vertexPayload := .ok
               [{ x := 0, y := 0, z := 0 }, { x := 1, y := 0, z := 0 },
                { x := 0, y := 1, z := 0 }],
             facePayload := .ok [] },
           { name := "face",
             vertexPayload := .ok [],
             facePayload := .ok [{ vertex_index := [0, 1, 2] }] }] } }

/-- The model that loading `c5env` produces. -/
def c5model : Model3D :=
  { meshes :=
      [{ vertices :=
           [{ position := ⟨0, 0, 0⟩, color := none, tex_coord := none,
              normal := none },
            { position := ⟨1, 0, 0⟩, color := none, tex_coord := none,
              normal := none },
            { position := ⟨0, 1, 0⟩, color := none, tex_coord := none,
              normal := none }],
         indices := none, mode := some .TriangleFan,
         material_index := none, name := none }],
    materials := [], format := .PLY }

/-- A glTF primitive with two positions and a 16-bit index stream. -/
def c6prim : GPrimitive :=
  { positions := some [⟨0, 0, 0⟩, ⟨1, 0, 0⟩],
    normals := none, colors := none, tex_coords := none,
    indicesRead := some (.U16 [0, 1, 0]),
    mode := .Triangles, materialIndex := none }

/-- An OBJ environment with one triangle model carrying a non-empty index
list and one model with an empty index list, no material file issues. -/
def c6objenv : ObjEnv :=
  { loadResult := .ok
      ([{ name := "tri",
          mesh := { positions := [0, 0, 0, 1, 0, 0, 0, 1, 0],
                    normals := [], texcoords := [], vertex_color := [],
                    indices := [0, 1, 2], material_id := none } },
        { name := "empty",
          mesh := { positions := [], normals := [], texcoords := [],
                    vertex_color := [], indices := [],
                    material_id := none } }],
       .ok []),
    parentDir := "." }

/-- The model that loading `c6objenv` produces. -/
def c6objmodel : Model3D :=
  { meshes :=
      [{ vertices :=
           [{ position := ⟨0, 0, 0⟩, color := none, tex_coord := none,
              normal := none },
            { position := ⟨1, 0, 0⟩, color := none, tex_coord := none,
              normal := none },
            { position := ⟨0, 1, 0⟩, color := none, tex_coord := none,
              normal := none }],
         indices := some (.U32 [0, 1, 2]), mode := some .TriangleFan,
         material_index := none, name := some "tri" },
       { vertices := [], indices := none, mode := some .TriangleFan,
         material_index := none, name := some "empty" }],
    materials := [], format := .OBJ }

/-- An STL file with one vertex and one triangle referencing it. -/
def c7env : StlEnv :=
  { openResult := .ok (),
    readResult := .ok
      { vertices := [⟨1, 2, 3⟩],
        faces := [{ normal := ⟨0, 0, 1⟩, v0 := 0, v1 := 0, v2 := 0 }] } }

/-- The model that loading `c7env` produces. -/
def c7model : Model3D :=
  { meshes :=
      [{ vertices :=
           [{ position := ⟨1, 2, 3⟩, color := none, tex_coord := none,
              normal := some ⟨0, 0, 1⟩ },
            { position := ⟨1, 2, 3⟩, color := none, tex_coord := none,
              normal := some ⟨0, 0, 1⟩ },
            { position := ⟨1, 2, 3⟩, color := none, tex_coord := none,
              normal := some ⟨0, 0, 1⟩ }],
         indices := none, mode := none, material_index := none,
         name := none }],
    materials := [], format := .STL }

/-- An OBJ environment with one material and one model referencing it. -/
def c9objenv : ObjEnv :=
  { loadResult := .ok
      ([{ name := "tri",
          mesh := { positions := [0, 0, 0, 1, 0, 0, 0, 1, 0],
                    normals := [], texcoords := [], vertex_color := [],
                    indices := [0, 1, 2], material_id := some 0 } }],
       .ok [{ name := "mat", diffuse := some ⟨1, 0, 0⟩,
              dissolve := none, diffuse_texture := none }]),
    parentDir := "." }

/-- A glTF environment with one material and one single-primitive mesh
referencing it. -/
def c9gltfenv : GltfEnv :=
  { openResult := .ok (),
    parseResult := .ok
      { materials :=
          [{ name := some "mat",
             pbr := { base_color_factor := ⟨1, 1, 1, 1⟩,
                      base_color_texture := none },
             alpha_mode := .Opaque, alpha_cutoff := none,
             double_sided := false }],
        meshes :=
          [{ name := some "mesh",
             primitives :=
               [{ positions := some [⟨0, 0, 0⟩],
                  normals := none, colors := none, tex_coords := none,
                  indicesRead := none, mode := .Triangles,
                  materialIndex := some 0 }] }] },
    buffersResult := .ok [],
    parentDir := "." }

/-- The model that loading `c9objenv` produces. -/
def c9objmodel : Model3D :=
  { meshes :=
      [{ vertices :=
           [{ position := ⟨0, 0, 0⟩, color := none, tex_coord := none,
              normal := none },
            { position := ⟨1, 0, 0⟩, color := none, tex_coord := none,
              normal := none },
            { position := ⟨0, 1, 0⟩, color := none, tex_coord := none,
              normal := none }],
         indices := some (.U32 [0, 1, 2]), mode := some .TriangleFan,
         material_index := some 0, name := some "tri" }],
    materials :=
      [{ diffuse_texture := none, alpha_mode := .Opaque, alpha_cutoff := none,
         double_sided := false, base_color := some ⟨1, 0, 0, 1⟩,
         name := some "mat" }],
    format := .OBJ }

/-- The model that loading `c9gltfenv` produces. -/
def c9gltfmodel : Model3D :=
  { meshes :=
      [{ vertices :=
           [{ position := ⟨0, 0, 0⟩, color := none, tex_coord := none,
              normal := none }],
         indices := none, mode := some .Triangles,
         material_index := some 0, name := some "mesh" }],
    materials :=
      [{ diffuse_texture := none, alpha_mode := .Opaque, alpha_cutoff := none,
         double_sided := false, base_color := some ⟨1, 1, 1, 1⟩,
         name := some "mat" }],
    format := .GLTF }

/-- A `tobj` mesh with two vertices carrying per-vertex colors. -/
def c10mesh : TobjMesh :=
  { positions := [1, 2, 3, 4, 5, 6],
    normals := [],
    texcoords := [],
    vertex_color := [7, 8, 9, 10, 11, 12],
    indices := [0, 1],
    material_id := none }

/-! ## General lemmas about `Outcome` -/

@[simp] theorem Outcome.ok_bind {α β : Type} (a : α) (f : α → Outcome β) :
    (Outcome.ok a).bind f = f a := rfl

@[simp] theorem Outcome.err_bind {α β : Type} (e : ModelError)
    (f : α → Outcome β) : (Outcome.err e).bind f = .err e := rfl

@[simp] theorem Outcome.panicked_bind {α β : Type} (m : String)
    (f : α → Outcome β) : (Outcome.panicked m).bind f = .panicked m := rfl

theorem Outcome.bind_eq_ok {α β : Type} {o : Outcome α} {f : α → Outcome β}
    {b : β} : o.bind f = .ok b ↔ ∃ a, o = .ok a ∧ f a = .ok b := by
  cases o <;> simp [Outcome.bind]

/-- `Outcome.traverse` succeeds exactly when the body succeeds pointwise,
and then relates input and output positionally. -/
theorem Outcome.traverse_eq_ok {α β : Type} {f : α → Outcome β}
    {l : List α} {out : List β} :
    Outcome.traverse f l = .ok out ↔
      List.Forall₂ (fun a b => f a = .ok b) l out := by
  induction l generalizing out with
  | nil =>
    constructor
    · intro h
      cases out with
      | nil => exact List.Forall₂.nil
      | cons b bs => simp [Outcome.traverse] at h
    · intro h
      cases h
      rfl
  | cons a as ih =>
    constructor
    · intro h
      simp only [Outcome.traverse, Outcome.bind_eq_ok] at h
      obtain ⟨b, hb, bs, hbs, hout⟩ := h
      cases hout
      exact List.Forall₂.cons hb (ih.mp hbs)
    · intro h
      cases h with
      | cons hb hbs =>
        simp only [Outcome.traverse, Outcome.bind_eq_ok]
        exact ⟨_, hb, _, ih.mpr hbs, rfl⟩

/-- Right-membership inversion for positional correspondence. -/
theorem forall₂_mem_right {α β : Type} {R : α → β → Prop} {l₁ : List α}
    {l₂ : List β} (h : List.Forall₂ R l₁ l₂) {b : β} (hb : b ∈ l₂) :
    ∃ a ∈ l₁, R a b := by
  induction h with
  | nil => cases hb
  | cons hr _ ih =>
    rcases List.mem_cons.mp hb with rfl | hb'
    · exact ⟨_, List.mem_cons_self .., hr⟩
    · obtain ⟨a, ha, har⟩ := ih hb'
      exact ⟨a, List.mem_cons_of_mem _ ha, har⟩

/-! ## Lemmas about the PLY adapter -/

/-- A successful face conversion emits exactly three vertices. -/
theorem ply.faceVertices_length {vl : List PlyVertex} {f : PlyFace}
    {tri : List Vertex} (h : ply.faceVertices vl f = .ok tri) :
    tri.length = 3 := by
  unfold ply.faceVertices at h
  repeat' split at h
  all_goals cases h
  all_goals rfl

/-- A successful face expansion emits exactly `3 × (number of faces)`
vertices. -/
theorem ply.expandFaces_length {vl : List PlyVertex} {fl : List PlyFace}
    {verts : List Vertex} (h : ply.expandFaces vl fl = .ok verts) :
    verts.length = 3 * fl.length := by
  induction fl generalizing verts with
  | nil => cases h; rfl
  | cons f fs ih =>
    unfold ply.expandFaces at h
    rw [Outcome.bind_eq_ok] at h
    obtain ⟨tri, htri, h⟩ := h
    rw [Outcome.bind_eq_ok] at h
    obtain ⟨rest, hrest, h⟩ := h
    cases h
    have h1 := ply.faceVertices_length htri
    have h2 := ih hrest
    simp only [List.length_append, List.length_cons, h1, h2]
    omega

/-- Face conversion only consumes the first three entries of
`vertex_index`. -/
theorem ply.faceVertices_take3 (vl : List PlyVertex) (f : PlyFace) :
    ply.faceVertices vl f =
      ply.faceVertices vl { vertex_index := f.vertex_index.take 3 } := by
  have h0 : (f.vertex_index.take 3)[0]? = f.vertex_index[0]? :=
    List.getElem?_take_of_lt (by omega)
  have h1 : (f.vertex_index.take 3)[1]? = f.vertex_index[1]? :=
    List.getElem?_take_of_lt (by omega)
  have h2 : (f.vertex_index.take 3)[2]? = f.vertex_index[2]? :=
    List.getElem?_take_of_lt (by omega)
  simp only [ply.faceVertices, h0, h1, h2]

/-! ## Lemmas about the STL adapter -/

/-- Characterization of a successful STL face expansion: three vertices
per face, in face order, each pair of positions taken from the vertex
table at the face's three indices, all three sharing the face's normal,
with no color and no texture coordinate. -/
theorem stlExpand_ok {vl : List Vec3} {faces : List StlFace}
    {verts : List Vertex} (h : stlExpand vl faces = .ok verts) :
    verts.length = 3 * faces.length ∧
    ∀ i, (hi : i < faces.length) →
      ∃ p1 p2 p3,
        vl[(faces.get ⟨i, hi⟩).v0]? = some p1 ∧
        vl[(faces.get ⟨i, hi⟩).v1]? = some p2 ∧
        vl[(faces.get ⟨i, hi⟩).v2]? = some p3 ∧
        verts[3 * i]? =
          some { position := p1, color := none, tex_coord := none,
                 normal := some (faces.get ⟨i, hi⟩).normal } ∧
        verts[3 * i + 1]? =
          some { position := p2, color := none, tex_coord := none,
                 normal := some (faces.get ⟨i, hi⟩).normal } ∧
        verts[3 * i + 2]? =
          some { position := p3, color := none, tex_coord := none,
                 normal := some (faces.get ⟨i, hi⟩).normal }
      := by
  induction faces generalizing verts with
  | nil =>
    cases h
    exact ⟨rfl, fun i hi => absurd hi (Nat.not_lt_zero i)⟩
  | cons f fs ih =>
    unfold stlExpand at h
    repeat' split at h
    · rename_i pos1 pos2 pos3 heq1 heq2 heq3
      rw [Outcome.bind_eq_ok] at h
      obtain ⟨rest, hrest, h⟩ := h
      cases h
      obtain ⟨ihlen, ihget⟩ := ih hrest
      constructor
      · simp only [List.length_cons, ihlen]
        omega
      · intro i hi
        cases i with
        | zero =>
          refine ⟨pos1, pos2, pos3, heq1, heq2, heq3, ?_, ?_, ?_⟩ <;> simp
        | succ j =>
          have hj : j < fs.length := Nat.lt_of_succ_lt_succ hi
          obtain ⟨p1, p2, p3, g1, g2, g3, g4, g5, g6⟩ := ihget j hj
          have hget : (f :: fs).get ⟨j + 1, hi⟩ = fs.get ⟨j, hj⟩ := rfl
          refine ⟨p1, p2, p3, ?_, ?_, ?_, ?_, ?_, ?_⟩
          · rw [hget]; exact g1
          · rw [hget]; exact g2
          · rw [hget]; exact g3
          · rw [hget]
            have e : 3 * (j + 1) = 3 * j + 1 + 1 + 1 := by ring
            rw [e, List.getElem?_cons_succ, List.getElem?_cons_succ,
              List.getElem?_cons_succ]
            exact g4
          · rw [hget]
            have e : 3 * (j + 1) + 1 = 3 * j + 1 + 1 + 1 + 1 := by ring
            rw [e, List.getElem?_cons_succ, List.getElem?_cons_succ,
              List.getElem?_cons_succ]
            exact g5
          · rw [hget]
            have e : 3 * (j + 1) + 2 = 3 * j + 2 + 1 + 1 + 1 := by ring
            rw [e, List.getElem?_cons_succ, List.getElem?_cons_succ,
              List.getElem?_cons_succ]
            exact g6
    · exact absurd h (by simp)

/-! ## Lemmas about the OBJ adapter -/

/-- Successful mesh-loop runs relate source models and output meshes
positionally. -/
theorem obj.meshList_ok {models : List TobjModel} {meshes : List Mesh}
    (h : obj.meshList models = .ok meshes) :
    List.Forall₂ (fun (model : TobjModel) (m : Mesh) =>
      obj.load_mesh model.mesh = .ok m.vertices ∧
      m.indices = (if model.mesh.indices = [] then none
                   else some (.U32 model.mesh.indices)) ∧
      m.mode = some RenderMode.TriangleFan ∧
      m.name = some model.name ∧
      m.material_index = model.mesh.material_id) models meshes := by
  induction models generalizing meshes with
  | nil => cases h; exact .nil
  | cons model rest ih =>
    unfold obj.meshList at h
    rw [Outcome.bind_eq_ok] at h
    obtain ⟨vertices, hv, h⟩ := h
    rw [Outcome.bind_eq_ok] at h
    obtain ⟨tail, ht, h⟩ := h
    cases h
    exact .cons ⟨hv, rfl, rfl, rfl, rfl⟩ (ih ht)

/-- When the source mesh has no `vertex_color` array, a successfully
built vertex has no color. -/
theorem obj.vertexAt_color_empty {mesh : TobjMesh} {i : Nat} {v : Vertex}
    (h : obj.vertexAt mesh i = .ok v) (hc : mesh.vertex_color = []) :
    v.color = none := by
  unfold obj.vertexAt at h
  split at h
  · rw [Outcome.bind_eq_ok] at h
    obtain ⟨tex, _, h⟩ := h
    rw [Outcome.bind_eq_ok] at h
    obtain ⟨col, hC, h⟩ := h
    rw [Outcome.bind_eq_ok] at h
    obtain ⟨nor, _, h⟩ := h
    cases h
    rw [if_pos hc] at hC
    cases hC
    rfl
  · exact absurd h (by simp)

/-- When the source mesh has a non-empty `vertex_color` array, a
successfully built vertex's color is the three components at stride
`i * 3` with the alpha literal `0.0`. -/
theorem obj.vertexAt_color_nonempty {mesh : TobjMesh} {i : Nat} {v : Vertex}
    (h : obj.vertexAt mesh i = .ok v) (hc : ¬mesh.vertex_color = []) :
    ∃ r g b, mesh.vertex_color[i * 3]? = some r ∧
      mesh.vertex_color[i * 3 + 1]? = some g ∧
      mesh.vertex_color[i * 3 + 2]? = some b ∧
      v.color = some ⟨r, g, b, 0⟩ := by
  unfold obj.vertexAt at h
  split at h
  · rw [Outcome.bind_eq_ok] at h
    obtain ⟨tex, _, h⟩ := h
    rw [Outcome.bind_eq_ok] at h
    obtain ⟨col, hC, h⟩ := h
    rw [Outcome.bind_eq_ok] at h
    obtain ⟨nor, _, h⟩ := h
    cases h
    rw [if_neg hc] at hC
    repeat' split at hC
    · rename_i r g b hr hg hb
      cases hC
      exact ⟨r, g, b, hr, hg, hb, rfl⟩
    · exact absurd hC (by simp)
  · exact absurd h (by simp)

/-- Inversion of a successful `obj::load` call. -/
theorem obj_load_ok {env : ObjEnv} {model : Model3D}
    (h : obj.load env = .ok model) :
    ∃ models materials,
      env.loadResult = .ok (models, .ok materials) ∧
      model.materials =
        materials.map (fun material => obj.load_material material env.parentDir) ∧
      model.format = .OBJ ∧
      obj.meshList models = .ok model.meshes := by
  obtain ⟨loadResult, parentDir⟩ := env
  cases loadResult with
  | error e => exact absurd h (by simp [obj.load])
  | ok pair =>
    obtain ⟨models, materialsResult⟩ := pair
    cases materialsResult with
    | error e => exact absurd h (by simp [obj.load])
    | ok materials =>
      simp only [obj.load, Outcome.bind_eq_ok] at h
      obtain ⟨meshes, hm, h⟩ := h
      cases h
      exact ⟨models, materials, rfl, rfl, rfl, hm⟩

/-! ## Lemmas about the glTF adapter -/

/-- A successful `load_primitive` preserves the source index stream's
width tag 1:1 (`None` when the primitive has no index buffer). -/
theorem gltf.load_primitive_indices {p : GPrimitive} {vs : List Vertex}
    {idx : Option Indices} (h : gltf.load_primitive p = .ok (vs, idx)) :
    idx = p.indicesRead.map fun r =>
      match r with
      | .U8 l => Indices.U8 l
      | .U16 l => Indices.U16 l
      | .U32 l => Indices.U32 l := by
  unfold gltf.load_primitive at h
  split at h
  · exact absurd h (by simp)
  · rw [Outcome.bind_eq_ok] at h
    obtain ⟨v1, _, h⟩ := h
    rw [Outcome.bind_eq_ok] at h
    obtain ⟨v2, _, h⟩ := h
    rw [Outcome.bind_eq_ok] at h
    obtain ⟨v3, _, h⟩ := h
    cases h
    rfl

/-- The material loop of `gltf::load` emits exactly one canonical
material per source material. -/
theorem gltf.materialList_length {dir : String} {bd : List (List Nat)}
    {ms : List GMaterial} {out : List Material}
    (h : gltf.materialList dir bd ms = .ok out) : out.length = ms.length := by
  induction ms generalizing out with
  | nil => cases h; rfl
  | cons m rest ih =>
    unfold gltf.materialList at h
    rw [Outcome.bind_eq_ok] at h
    obtain ⟨a, _, h⟩ := h
    rw [Outcome.bind_eq_ok] at h
    obtain ⟨tail, ht, h⟩ := h
    cases h
    simp [ih ht]

/-- Every mesh emitted by the primitive loop carries the primitive's
material index, its converted mode, and the glTF mesh's name. -/
theorem gltf.primMeshes_mem {name : Option String} {ps : List GPrimitive}
    {out : List Mesh} (h : gltf.primMeshes name ps = .ok out) {m : Mesh}
    (hm : m ∈ out) :
    ∃ p ∈ ps, m.material_index = p.materialIndex ∧
      m.mode = some (gltf.convert_mode p.mode) ∧ m.name = name ∧
      gltf.load_primitive p = .ok (m.vertices, m.indices) := by
  induction ps generalizing out with
  | nil => cases h; cases hm
  | cons p rest ih =>
    unfold gltf.primMeshes at h
    rw [Outcome.bind_eq_ok] at h
    obtain ⟨vi, hvi, h⟩ := h
    rw [Outcome.bind_eq_ok] at h
    obtain ⟨tail, ht, h⟩ := h
    cases h
    rcases List.mem_cons.mp hm with rfl | hm'
    · exact ⟨p, List.mem_cons_self .., rfl, rfl, rfl, hvi⟩
    · obtain ⟨p', hp', hrest⟩ := ih ht hm'
      exact ⟨p', List.mem_cons_of_mem _ hp', hrest⟩

/-- Every mesh emitted by the mesh loop of `gltf::load` stems from some
primitive of some source mesh. -/
theorem gltf.meshesOf_mem {gms : List GMesh} {out : List Mesh}
    (h : gltf.meshesOf gms = .ok out) {m : Mesh} (hm : m ∈ out) :
    ∃ gm ∈ gms, ∃ p ∈ gm.primitives, m.material_index = p.materialIndex := by
  induction gms generalizing out with
  | nil => cases h; cases hm
  | cons gm rest ih =>
    unfold gltf.meshesOf at h
    rw [Outcome.bind_eq_ok] at h
    obtain ⟨ms, hms, h⟩ := h
    rw [Outcome.bind_eq_ok] at h
    obtain ⟨tail, ht, h⟩ := h
    cases h
    rcases List.mem_append.mp hm with hm' | hm'
    · obtain ⟨p, hp, hidx, _⟩ := gltf.primMeshes_mem hms hm'
      exact ⟨gm, List.mem_cons_self .., p, hp, hidx⟩
    · obtain ⟨gm', hgm', hrest⟩ := ih ht hm'
      exact ⟨gm', List.mem_cons_of_mem _ hgm', hrest⟩

/-- Inversion of a successful `gltf::load` call. -/
theorem gltf_load_ok {env : GltfEnv} {model : Model3D}
    (h : gltf.load env = .ok model) :
    ∃ document buffer_data,
      env.parseResult = .ok document ∧
      env.buffersResult = .ok buffer_data ∧
      model.format = .GLTF ∧
      gltf.materialList env.parentDir buffer_data document.materials =
        .ok model.materials ∧
      gltf.meshesOf document.meshes = .ok model.meshes := by
  unfold gltf.load at h
  split at h
  · exact absurd h (by simp)
  · split at h
    · exact absurd h (by simp)
    · rename_i document heq
      split at h
      · exact absurd h (by simp)
      · rename_i buffer_data heq2
        rw [Outcome.bind_eq_ok] at h
        obtain ⟨materials, hmat, h⟩ := h
        rw [Outcome.bind_eq_ok] at h
        obtain ⟨meshes, hmesh, h⟩ := h
        cases h
        exact ⟨document, buffer_data, heq, heq2, rfl, hmat, hmesh⟩

/-! ## Claims -/

/-- C1: the claim states that `Model3D::load` maps a missing path to
`FileNotExists`, then maps the extension case-sensitively by
`{obj → OBJ, gltf|glb → GLTF, stl → STL, ply → PLY}`, and yields the
`UnknownFormat` error (not a panic) for an absent or unrecognized
extension.  The code diverges twice: `get_format` has no `"ply"` arm, so
an existing `.ply` file is answered with `UnknowFormat` even though the
`PLY` format, the `ply` adapter and `from_format`'s `PLY` dispatch all
exist; and an absent extension panics through
`.expect("Failed to get File extension")` instead of returning an error.
The remaining mappings behave as claimed. -/
theorem C1_dispatcher_divergence :
    Model3D.load c1env = .err .UnknowFormat ∧
    get_format true (some "ply") = .err .UnknowFormat ∧
    Model3D.load { c1env with extension := none } =
      .panicked "Failed to get File extension" ∧
    Model3D.load { c1env with pathExists := false } = .err .FileNotExists ∧
    get_format false none = .err .FileNotExists ∧
    get_format true (some "obj") = .ok .OBJ ∧
    get_format true (some "gltf") = .ok .GLTF ∧
    get_format true (some "glb") = .ok .GLTF ∧
    get_format true (some "stl") = .ok .STL ∧
    get_format true (some "OBJ") = .err .UnknowFormat ∧
    get_format true (some "xyz") = .err .UnknowFormat := by
  decide

/-- C2: the claim states that every adapter surfaces every external-parser
or file-opening failure as a typed `ModelError` and never panics.  The
code diverges: `stl::load` unwraps both `File::open` and `read_stl`
(panicking on failure), `ply::load` unwraps `read_header` and
`read_payload_for_element` and hits `panic!("Enexpeced element!")` on an
unknown element, and `gltf::load` `.expect`s `import_buffers` success.
(`obj::load` and the open/document-parse paths of `gltf::load` do return
typed errors.) -/
theorem C2_adapter_panic_divergence :
    stl.load { openResult := .error "No such file or directory (os error 2)",
               readResult := .error "unused" } =
      .panicked "No such file or directory (os error 2)" ∧
    stl.load { openResult := .ok (), readResult := .error "invalid STL" } =
      .panicked "invalid STL" ∧
    ply.load { openResult := .ok (), headerResult := .error "bad header" } =
      .panicked "bad header" ∧
    ply.load { openResult := .ok (),
               headerResult := .ok { elements :=
                 [{ name := "edge", vertexPayload := .ok [],
                    facePayload := .ok [] }] } } =
      .panicked "Enexpeced element!" ∧
    gltf.load { openResult := .ok (),
                parseResult := .ok { materials := [], meshes := [] },
                buffersResult := .error "missing buffer",
                parentDir := "." } =
      .panicked "Failed to Load glTF Buffers" ∧
    obj.load { loadResult := .error "geometry broken", parentDir := "." } =
      .err (.ModelParsing "geometry broken") := by
  decide

/-- C3: the claim states a PLY vertex's emitted normal is present iff all
of `nx`, `ny`, `nz` were parsed and then equals `(nx, ny, nz)` (texcoords
analogously), with no zero-filled or stale values.  The code diverges: the
`if let` chain reads `z_norm` where `y_norm` is expected, so a fully
populated normal `(1, 2, 3)` is emitted as `(1, 3, 3)` (first conjunct),
and a vertex with only `nx` and `nz` parsed still gets a "present" normal
`(1, 2, 2)` even though `ny` is absent (third conjunct). -/
theorem C3_ply_normal_divergence :
    ply.load c3envA = .ok
      { meshes :=
          [{ vertices :=
               [{ position := ⟨10, 20, 30⟩, color := none, tex_coord := none,
                  normal := some ⟨1, 3, 3⟩ },
                { position := ⟨10, 20, 30⟩, color := none, tex_coord := none,
                  normal := some ⟨1, 3, 3⟩ },
                { position := ⟨10, 20, 30⟩, color := none, tex_coord := none,
                  normal := some ⟨1, 3, 3⟩ }],
             indices := none, mode := some .TriangleFan,
             material_index := none, name := none }],
        materials := [], format := .PLY } ∧
    Vec3.mk 1 3 3 ≠ Vec3.mk 1 2 3 ∧
    ply.load c3envB = .ok
      { meshes :=
          [{ vertices :=
               [{ position := ⟨10, 20, 30⟩, color := none, tex_coord := none,
                  normal := some ⟨1, 2, 2⟩ },
                { position := ⟨10, 20, 30⟩, color := none, tex_coord := none,
                  normal := some ⟨1, 2, 2⟩ },
                { position := ⟨10, 20, 30⟩, color := none, tex_coord := none,
                  normal := some ⟨1, 2, 2⟩ }],
             indices := none, mode := some .TriangleFan,
             material_index := none, name := none }],
        materials := [], format := .PLY } := by
  decide

/-- C4: the claim states that a glTF attribute stream whose length
disagrees with the position count makes the load return `ModelParsing`
(no panic, no silent truncation or padding).  The code diverges: a normal
stream longer than the positions panics on the out-of-bounds
`vertices[normal_index]` write (first conjunct), and a shorter stream is
silently accepted, leaving the attribute of the remaining vertices unset
(second conjunct) — neither case produces `ModelParsing`. -/
theorem C4_gltf_attribute_mismatch :
    gltf.load_primitive
      { positions := some [⟨0, 0, 0⟩],
        normals := some [⟨1, 0, 0⟩, ⟨0, 1, 0⟩],
        colors := none, tex_coords := none, indicesRead := none,
        mode := .Triangles, materialIndex := none } =
      .panicked "index out of bounds" ∧
    gltf.load_primitive
      { positions := some [⟨0, 0, 0⟩, ⟨1, 1, 1⟩],
        normals := some [⟨1, 0, 0⟩],
        colors := none, tex_coords := none, indicesRead := none,
        mode := .Triangles, materialIndex := none } =
      .ok ([{ position := ⟨0, 0, 0⟩, color := none, tex_coord := none,
              normal := some ⟨1, 0, 0⟩ },
            { position := ⟨1, 1, 1⟩, color := none, tex_coord := none,
              normal := none }], none) := by
  decide

/-- C5 counterexample: the claim asserts the PLY mesh's render topology is
the triangle-list mode; loading a well-formed one-triangle PLY file yields
a mesh whose `mode` is `TriangleFan`, not `Triangles`. -/
theorem C5_mode_counterexample :
    ply.load c5env = .ok
      { meshes :=
          [{ vertices :=
               [{ position := ⟨0, 0, 0⟩, color := none, tex_coord := none,
                  normal := none },
                { position := ⟨1, 0, 0⟩, color := none, tex_coord := none,
                  normal := none },
                { position := ⟨0, 1, 0⟩, color := none, tex_coord := none,
                  normal := none }],
             indices := none, mode := some .TriangleFan,
             material_index := none, name := none }],
        materials := [], format := .PLY } ∧
    some RenderMode.TriangleFan ≠ some RenderMode.Triangles := by
  decide

/-- C5 (amended): for every successfully loaded PLY file, the single
output mesh contains exactly 3 times as many vertices as there are faces
(only the first three indices of each face are consumed — second
conjunct — each referenced source vertex re-emitted in face order), its
`indices` field is `None` and the model's materials list is empty; the
mesh's render topology however is tagged triangle-fan, not
triangle-list. -/
theorem C5_duplication_amended :
    (∀ env model, ply.load env = .ok model →
      model.materials = [] ∧ model.format = .PLY ∧
      ∃ mesh, model.meshes = [mesh] ∧ mesh.indices = none ∧
        mesh.mode = some RenderMode.TriangleFan ∧
        mesh.material_index = none ∧ mesh.name = none ∧
        ∃ header lists, env.headerResult = .ok header ∧
          ply.readElements header.elements [] [] = .ok lists ∧
          ply.expandFaces lists.1 lists.2 = .ok mesh.vertices ∧
          mesh.vertices.length = 3 * lists.2.length) ∧
    (∀ vl f, ply.faceVertices vl f =
        ply.faceVertices vl { vertex_index := f.vertex_index.take 3 }) := by
  refine ⟨?_, ply.faceVertices_take3⟩
  intro env model h
  unfold ply.load at h
  split at h
  · exact absurd h (by simp)
  · split at h
    · exact absurd h (by simp)
    · rename_i header heq
      rw [Outcome.bind_eq_ok] at h
      obtain ⟨lists, hlists, h⟩ := h
      rw [Outcome.bind_eq_ok] at h
      obtain ⟨vertices, hverts, h⟩ := h
      cases h
      exact ⟨rfl, rfl, _, rfl, rfl, rfl, rfl, rfl, header, lists, heq,
        hlists, hverts, ply.expandFaces_length hverts⟩

/-- C5 witness: the amended statement instantiated at the one-triangle
file `c5env`. -/
theorem C5_duplication_witness :
    ply.load c5env = .ok c5model ∧
    (c5model.materials = [] ∧ c5model.format = .PLY ∧
      ∃ mesh, c5model.meshes = [mesh] ∧ mesh.indices = none ∧
        mesh.mode = some RenderMode.TriangleFan ∧
        mesh.material_index = none ∧ mesh.name = none ∧
        ∃ header lists, c5env.headerResult = .ok header ∧
          ply.readElements header.elements [] [] = .ok lists ∧
          ply.expandFaces lists.1 lists.2 = .ok mesh.vertices ∧
          mesh.vertices.length = 3 * lists.2.length) :=
  ⟨by decide, C5_duplication_amended.1 c5env c5model (by decide)⟩

/-- C6: for every successfully loaded glTF primitive, the `Indices` value
carries the same width tag (`U8`/`U16`/`U32`) as the source index stream,
never widened, and is `None` exactly when the source has no index buffer;
every OBJ mesh's `Indices` is tagged `U32` when the source index list is
non-empty and `None` exactly when it is empty. -/
theorem C6_index_width_fidelity :
    (∀ p vs idx, gltf.load_primitive p = .ok (vs, idx) →
      ((idx = none ↔ p.indicesRead = none) ∧
       (∀ l, p.indicesRead = some (.U8 l) → idx = some (.U8 l)) ∧
       (∀ l, p.indicesRead = some (.U16 l) → idx = some (.U16 l)) ∧
       (∀ l, p.indicesRead = some (.U32 l) → idx = some (.U32 l)))) ∧
    (∀ env model, obj.load env = .ok model →
      ∃ models materials,
        env.loadResult = .ok (models, .ok materials) ∧
        List.Forall₂ (fun (tm : TobjModel) (m : Mesh) =>
          m.indices = if tm.mesh.indices = [] then none
                      else some (Indices.U32 tm.mesh.indices))
          models model.meshes) := by
  constructor
  · intro p vs idx h
    have hidx := gltf.load_primitive_indices h
    subst hidx
    refine ⟨?_, ?_, ?_, ?_⟩
    · simp [Option.map_eq_none']
    · intro l hl; rw [hl]; rfl
    · intro l hl; rw [hl]; rfl
    · intro l hl; rw [hl]; rfl
  · intro env model h
    obtain ⟨models, materials, henv, _, _, hmesh⟩ := obj_load_ok h
    exact ⟨models, materials, henv,
      (obj.meshList_ok hmesh).imp fun a b hab => hab.2.1⟩

/-- C6 witness: the statement instantiated at a 16-bit-indexed glTF
primitive and at a two-model OBJ file. -/
theorem C6_index_width_witness :
    gltf.load_primitive c6prim =
      .ok ([{ position := ⟨0, 0, 0⟩, color := none, tex_coord := none,
              normal := none },
            { position := ⟨1, 0, 0⟩, color := none, tex_coord := none,
              normal := none }],
           some (.U16 [0, 1, 0])) ∧
    ((some (Indices.U16 [0, 1, 0]) = none ↔ c6prim.indicesRead = none) ∧
     (∀ l, c6prim.indicesRead = some (.U8 l) →
        some (Indices.U16 [0, 1, 0]) = some (.U8 l)) ∧
     (∀ l, c6prim.indicesRead = some (.U16 l) →
        some (Indices.U16 [0, 1, 0]) = some (.U16 l)) ∧
     (∀ l, c6prim.indicesRead = some (.U32 l) →
        some (Indices.U16 [0, 1, 0]) = some (.U32 l))) ∧
    obj.load c6objenv = .ok c6objmodel ∧
    (∃ models materials,
      c6objenv.loadResult = .ok (models, .ok materials) ∧
      List.Forall₂ (fun (tm : TobjModel) (m : Mesh) =>
        m.indices = if tm.mesh.indices = [] then none
                    else some (Indices.U32 tm.mesh.indices))
        models c6objmodel.meshes) :=
  ⟨by decide,
   C6_index_width_fidelity.1 c6prim
     [{ position := ⟨0, 0, 0⟩, color := none, tex_coord := none,
        normal := none },
      { position := ⟨1, 0, 0⟩, color := none, tex_coord := none,
        normal := none }]
     (some (.U16 [0, 1, 0])) (by decide),
   by decide, C6_index_width_fidelity.2 c6objenv c6objmodel (by decide)⟩

/-- C7: for every successfully loaded STL file, the result has exactly one
mesh with no name, no index buffer (and, in this source, no initialized
render mode) and an empty materials list; for every source triangle,
exactly three vertices are emitted in order, each with position taken from
the vertex table at that triangle's three indices, normal equal to the
triangle's single declared normal on all three, no texture coordinate and
no color. -/
theorem C7_stl_flat_shading (env : StlEnv) (model : Model3D)
    (h : stl.load env = .ok model) :
    model.materials = [] ∧ model.format = .STL ∧
    ∃ s, env.readResult = .ok s ∧
      ∃ verts,
        model.meshes = [{ vertices := verts, indices := none, mode := none,
                          material_index := none, name := none }] ∧
        verts.length = 3 * s.faces.length ∧
        ∀ i, (hi : i < s.faces.length) →
          ∃ p1 p2 p3,
            s.vertices[(s.faces.get ⟨i, hi⟩).v0]? = some p1 ∧
            s.vertices[(s.faces.get ⟨i, hi⟩).v1]? = some p2 ∧
            s.vertices[(s.faces.get ⟨i, hi⟩).v2]? = some p3 ∧
            verts[3 * i]? =
              some { position := p1, color := none, tex_coord := none,
                     normal := some (s.faces.get ⟨i, hi⟩).normal } ∧
            verts[3 * i + 1]? =
              some { position := p2, color := none, tex_coord := none,
                     normal := some (s.faces.get ⟨i, hi⟩).normal } ∧
            verts[3 * i + 2]? =
              some { position := p3, color := none, tex_coord := none,
                     normal := some (s.faces.get ⟨i, hi⟩).normal } := by
  unfold stl.load at h
  split at h
  · exact absurd h (by simp)
  · split at h
    · exact absurd h (by simp)
    · rename_i s heq
      rw [Outcome.bind_eq_ok] at h
      obtain ⟨vertices, hv, h⟩ := h
      cases h
      obtain ⟨hlen, hget⟩ := stlExpand_ok hv
      exact ⟨rfl, rfl, s, heq, vertices, rfl, hlen, hget⟩

/-- C7 witness: the statement instantiated at a one-triangle STL file. -/
theorem C7_stl_flat_shading_witness :
    stl.load c7env = .ok c7model ∧
    (c7model.materials = [] ∧ c7model.format = .STL ∧
     ∃ s, c7env.readResult = .ok s ∧
       ∃ verts,
         c7model.meshes = [{ vertices := verts, indices := none,
                             mode := none, material_index := none,
                             name := none }] ∧
         verts.length = 3 * s.faces.length ∧
         ∀ i, (hi : i < s.faces.length) →
           ∃ p1 p2 p3,
             s.vertices[(s.faces.get ⟨i, hi⟩).v0]? = some p1 ∧
             s.vertices[(s.faces.get ⟨i, hi⟩).v1]? = some p2 ∧
             s.vertices[(s.faces.get ⟨i, hi⟩).v2]? = some p3 ∧
             verts[3 * i]? =
               some { position := p1, color := none, tex_coord := none,
                      normal := some (s.faces.get ⟨i, hi⟩).normal } ∧
             verts[3 * i + 1]? =
               some { position := p2, color := none, tex_coord := none,
                      normal := some (s.faces.get ⟨i, hi⟩).normal } ∧
             verts[3 * i + 2]? =
               some { position := p3, color := none, tex_coord := none,
                      normal := some (s.faces.get ⟨i, hi⟩).normal }) :=
  ⟨by decide, C7_stl_flat_shading c7env c7model (by decide)⟩

/-- C8: an OBJ geometry-parse failure yields `ModelParsing`, a failure of
only the companion material file yields `MaterialLoad`, and the two error
constructors are never equal. -/
theorem C8_obj_error_kinds :
    (∀ e dir, obj.load { loadResult := .error e, parentDir := dir } =
      .err (.ModelParsing e)) ∧
    (∀ models e dir,
      obj.load { loadResult := .ok (models, .error e), parentDir := dir } =
        .err (.MaterialLoad ("Failed to load MTL file, " ++ e))) ∧
    (∀ s t, decide (ModelError.ModelParsing s = ModelError.MaterialLoad t)
      = false) :=
  ⟨fun e dir => rfl, fun models e dir => rfl, fun s t => rfl⟩

/-- C9: for every model an adapter returns, a present `material_index`
indexes into that model's materials list.  STL and PLY produce no
materials and always set `material_index` to `None`; OBJ and glTF pass
the source's material id through, so their parts hold under the external
parsers' documented guarantee that source material ids index the source
material list (whose length both adapters preserve). -/
theorem C9_material_index_integrity :
    (∀ env model, stl.load env = .ok model →
      model.materials = [] ∧ ∀ m ∈ model.meshes, m.material_index = none) ∧
    (∀ env model, ply.load env = .ok model →
      model.materials = [] ∧ ∀ m ∈ model.meshes, m.material_index = none) ∧
    (∀ env model, obj.load env = .ok model →
      (∀ models materials, env.loadResult = .ok (models, .ok materials) →
        ∀ tm ∈ models, ∀ i, tm.mesh.material_id = some i →
          i < materials.length) →
      materialIndexOk model = true) ∧
    (∀ env model, gltf.load env = .ok model →
      (∀ document, env.parseResult = .ok document →
        ∀ gm ∈ document.meshes, ∀ p ∈ gm.primitives, ∀ i,
          p.materialIndex = some i → i < document.materials.length) →
      materialIndexOk model = true) := by
  refine ⟨?_, ?_, ?_, ?_⟩
  · intro env model h
    unfold stl.load at h
    split at h
    · exact absurd h (by simp)
    · split at h
      · exact absurd h (by simp)
      · rw [Outcome.bind_eq_ok] at h
        obtain ⟨vertices, _, h⟩ := h
        cases h
        exact ⟨rfl, by simp⟩
  · intro env model h
    unfold ply.load at h
    split at h
    · exact absurd h (by simp)
    · split at h
      · exact absurd h (by simp)
      · rw [Outcome.bind_eq_ok] at h
        obtain ⟨lists, _, h⟩ := h
        rw [Outcome.bind_eq_ok] at h
        obtain ⟨vertices, _, h⟩ := h
        cases h
        exact ⟨rfl, by simp⟩
  · intro env model h hguard
    obtain ⟨models, materials, henv, hmats, _, hmesh⟩ := obj_load_ok h
    have hlen : model.materials.length = materials.length := by
      rw [hmats, List.length_map]
    unfold materialIndexOk
    rw [List.all_eq_true]
    intro m hm
    obtain ⟨tm, htm, hrel⟩ := forall₂_mem_right (obj.meshList_ok hmesh) hm
    rw [hrel.2.2.2.2]
    cases hid : tm.mesh.material_id with
    | none => rfl
    | some i =>
      have hi := hguard models materials henv tm htm i hid
      simp only [decide_eq_true_eq]
      rw [hlen]
      exact hi
  · intro env model h hguard
    obtain ⟨document, buffer_data, hparse, _, _, hmat, hmesh⟩ :=
      gltf_load_ok h
    have hlen : model.materials.length = document.materials.length :=
      gltf.materialList_length hmat
    unfold materialIndexOk
    rw [List.all_eq_true]
    intro m hm
    obtain ⟨gm, hgm, p, hp, hidx⟩ := gltf.meshesOf_mem hmesh hm
    rw [hidx]
    cases hid : p.materialIndex with
    | none => rfl
    | some i =>
      have hi := hguard document hparse gm hgm p hp i hid
      simp only [decide_eq_true_eq]
      rw [hlen]
      exact hi

/-- C9 witness: the four parts instantiated at concrete STL, PLY, OBJ and
glTF environments whose loads succeed. -/
theorem C9_material_index_witness :
    (c7model.materials = [] ∧
      ∀ m ∈ c7model.meshes, m.material_index = none) ∧
    (c5model.materials = [] ∧
      ∀ m ∈ c5model.meshes, m.material_index = none) ∧
    materialIndexOk c9objmodel = true ∧
    materialIndexOk c9gltfmodel = true :=
  ⟨C9_material_index_integrity.1 c7env c7model (by decide),
   C9_material_index_integrity.2.1 c5env c5model (by decide),
   C9_material_index_integrity.2.2.1 c9objenv c9objmodel (by decide)
     (by
       intro models materials heq tm htm i hid
       cases heq
       simp only [List.mem_singleton] at htm
       subst htm
       cases hid
       decide),
   C9_material_index_integrity.2.2.2 c9gltfenv c9gltfmodel (by decide)
     (by
       intro document hparse gm hgm p hp i hid
       cases hparse
       simp only [List.mem_singleton] at hgm
       subst hgm
       simp only [List.mem_singleton] at hp
       subst hp
       cases hid
       decide)⟩

/-- C10: for every OBJ mesh built by `load_mesh`, when the source's
`vertex_color` array is non-empty every emitted vertex's color is
`Some([r, g, b, 0.0])` — the three stride-3 components with alpha fixed
at the literal `0.0`, not `1.0` — and when the array is empty every
emitted vertex's color is `None`. -/
theorem C10_obj_vertex_color_alpha (mesh : TobjMesh) (verts : List Vertex)
    (h : obj.load_mesh mesh = .ok verts) :
    (mesh.vertex_color = [] → ∀ v ∈ verts, v.color = none) ∧
    (mesh.vertex_color ≠ [] →
      ∀ i, (hi : i < verts.length) →
        ∃ r g b, mesh.vertex_color[i * 3]? = some r ∧
          mesh.vertex_color[i * 3 + 1]? = some g ∧
          mesh.vertex_color[i * 3 + 2]? = some b ∧
          (verts.get ⟨i, hi⟩).color = some ⟨r, g, b, 0⟩) := by
  unfold obj.load_mesh at h
  rw [Outcome.traverse_eq_ok] at h
  constructor
  · intro hc v hv
    obtain ⟨i, _, hvi⟩ := forall₂_mem_right h hv
    exact obj.vertexAt_color_empty hvi hc
  · intro hc i hi
    have hlen := h.length_eq
    have hilt : i < (List.range (mesh.positions.length / 3)).length := by
      rw [hlen]
      exact hi
    have hrel := h.get hilt hi
    rw [List.get_range] at hrel
    exact obj.vertexAt_color_nonempty hrel hc

/-- C10 witness: the statement instantiated at a two-vertex colored
mesh. -/
theorem C10_obj_vertex_color_witness :
    (c10mesh.vertex_color = [] →
      ∀ v ∈ [({ position := ⟨1, 2, 3⟩,
                color := some ⟨7, 8, 9, 0⟩, tex_coord := none,
                normal := none } : Vertex),
             { position := ⟨4, 5, 6⟩,
               color := some ⟨10, 11, 12, 0⟩, tex_coord := none,
               normal := none }], v.color = none) ∧
    (c10mesh.vertex_color ≠ [] →
      ∀ i, (hi : i < ([({ position := ⟨1, 2, 3⟩,
                          color := some ⟨7, 8, 9, 0⟩, tex_coord := none,
                          normal := none } : Vertex),
                       { position := ⟨4, 5, 6⟩,
                         color := some ⟨10, 11, 12, 0⟩, tex_coord := none,
                         normal := none }] : List Vertex).length) →
        ∃ r g b, c10mesh.vertex_color[i * 3]? = some r ∧
          c10mesh.vertex_color[i * 3 + 1]? = some g ∧
          c10mesh.vertex_color[i * 3 + 2]? = some b ∧
          (([({ position := ⟨1, 2, 3⟩,
                color := some ⟨7, 8, 9, 0⟩, tex_coord := none,
                normal := none } : Vertex),
             { position := ⟨4, 5, 6⟩,
               color := some ⟨10, 11, 12, 0⟩, tex_coord := none,
               normal := none }] : List Vertex).get ⟨i, hi⟩).color =
            some ⟨r, g, b, 0⟩) :=
  C10_obj_vertex_color_alpha c10mesh
    [{ position := ⟨1, 2, 3⟩, color := some ⟨7, 8, 9, 0⟩, tex_coord := none,
       normal := none },
     { position := ⟨4, 5, 6⟩, color := some ⟨10, 11, 12, 0⟩,
       tex_coord := none, normal := none }] (by decide)
